import Mathlib

/-!
Verification development for the native side of the ChromeOS Smart Card
Connector bridge.  The embedding covers:

* the USB descriptor data model declared in
  `third_party/libusb/webport/src/libusb_js_proxy_data_model.h`
  (structs `LibusbJsDevice`, `LibusbJsEndpointDescriptor`,
  `LibusbJsInterfaceDescriptor`, `LibusbJsConfigurationDescriptor` and the
  enums `LibusbJsDirection`, `LibusbJsEndpointType`);
* the integration-test helper implemented in
  `smart_card_connector_app/src/application_integration_test_helper.cc`
  (`SetUp`, `OnMessageFromJs`, `TearDown`), modelled as explicit state
  passing plus event traces;
* the `TypedValue` serialization currency and the descriptor encode/decode
  functions, which are only declared (not defined) in the sources at hand,
  modelled from the specification.

Machine integers are modelled as subtypes of `Nat` / `Int` with explicit
range bounds, matching the fixed-width C++ fields.
-/

set_option autoImplicit false

namespace GoogleSmartCard

/-- Model of the C++ `uint8_t` type: a natural number below `2^8 = 256`. -/
abbrev UInt8Val := {n : Nat // n < 256}

/-- Model of the C++ `uint16_t` type: a natural number below `2^16 = 65536`. -/
abbrev UInt16Val := {n : Nat // n < 65536}

/-- Model of the C++ `uint32_t` type: a natural number below `2^32 = 4294967296`. -/
abbrev UInt32Val := {n : Nat // n < 4294967296}

/-- Model of the C++ `int64_t` type: an integer in `[-2^63, 2^63)`, written
with the literal bound `9223372036854775808 = 2^63`. -/
abbrev Int64Val := {i : Int // -9223372036854775808 ≤ i ∧ i < 9223372036854775808}

/-- Embedding of `struct LibusbJsDevice`
(`libusb_js_proxy_data_model.h`, lines 36-56): a transient device
identifier, vendor/product ids, and four genuinely optional fields. -/
structure LibusbJsDevice where
  device_id : Int64Val
  vendor_id : UInt32Val
  product_id : UInt32Val
  version : Option Int64Val
  product_name : Option String
  manufacturer_name : Option String
  serial_number : Option String
deriving DecidableEq

/-- Embedding of `enum LibusbJsDirection` (`libusb_js_proxy_data_model.h`,
lines 58-61): exactly the two values `kIn` and `kOut`. -/
inductive LibusbJsDirection where
  | kIn
  | kOut
deriving DecidableEq

/-- Embedding of `enum LibusbJsEndpointType` (`libusb_js_proxy_data_model.h`,
lines 63-68): exactly the four values `kBulk`, `kControl`, `kInterrupt`,
`kIsochronous`. -/
inductive LibusbJsEndpointType where
  | kBulk
  | kControl
  | kInterrupt
  | kIsochronous
deriving DecidableEq

/-- Embedding of `struct LibusbJsEndpointDescriptor`
(`libusb_js_proxy_data_model.h`, lines 70-78). -/
structure LibusbJsEndpointDescriptor where
  endpoint_address : UInt8Val
  direction : LibusbJsDirection
  type : LibusbJsEndpointType
  extra_data : Option (List UInt8Val)
  max_packet_size : UInt16Val
deriving DecidableEq

/-- Embedding of `struct LibusbJsInterfaceDescriptor`
(`libusb_js_proxy_data_model.h`, lines 80-91). -/
structure LibusbJsInterfaceDescriptor where
  interface_number : UInt8Val
  interface_class : UInt8Val
  interface_subclass : UInt8Val
  interface_protocol : UInt8Val
  extra_data : Option (List UInt8Val)
  endpoints : List LibusbJsEndpointDescriptor
deriving DecidableEq

/-- Embedding of `struct LibusbJsConfigurationDescriptor`
(`libusb_js_proxy_data_model.h`, lines 93-100). -/
structure LibusbJsConfigurationDescriptor where
  active : Bool
  configuration_value : UInt8Val
  extra_data : Option (List UInt8Val)
  interfaces : List LibusbJsInterfaceDescriptor
deriving DecidableEq

/-- Modelled from the spec: the endpoint-direction validation check.  No
validation code ships in the sources at hand (the header only declares the
plain struct); spec sections 3 and 8 define the checkable property: the
`direction` field must agree with bit 7 of `endpoint_address` (bit 7 set
means `kIn`, clear means `kOut`), and a mismatching combination is flagged
rather than silently accepted. -/
def endpointDirectionValid (e : LibusbJsEndpointDescriptor) : Bool :=
  if Nat.testBit e.endpoint_address.val 7 then
    decide (e.direction = LibusbJsDirection.kIn)
  else
    decide (e.direction = LibusbJsDirection.kOut)

/-- An IN endpoint (`bEndpointAddress = 0x81`, bit 7 set) from the spec's
direction-consistency scenario. -/
def endpointIn81 : LibusbJsEndpointDescriptor :=
  { endpoint_address := ⟨0x81, by decide⟩
    direction := LibusbJsDirection.kIn
    type := LibusbJsEndpointType.kBulk
    extra_data := none
    max_packet_size := ⟨64, by decide⟩ }

/-- An OUT endpoint (`bEndpointAddress = 0x02`, bit 7 clear) from the spec's
direction-consistency scenario. -/
def endpointOut02 : LibusbJsEndpointDescriptor :=
  { endpoint_address := ⟨0x02, by decide⟩
    direction := LibusbJsDirection.kOut
    type := LibusbJsEndpointType.kBulk
    extra_data := none
    max_packet_size := ⟨64, by decide⟩ }

/-- An adversarially mismatching endpoint: address `0x81` (bit 7 set) but
`direction = kOut`. -/
def endpointMismatch81Out : LibusbJsEndpointDescriptor :=
  { endpoint_address := ⟨0x81, by decide⟩
    direction := LibusbJsDirection.kOut
    type := LibusbJsEndpointType.kBulk
    extra_data := none
    max_packet_size := ⟨64, by decide⟩ }

/-- Claim C1: the validation check accepts an endpoint descriptor exactly
when its `direction` field agrees with bit 7 of `endpoint_address` (bit 7
set means `kIn`, clear means `kOut`); in particular the consistent endpoints
`0x81`/In and `0x02`/Out pass the check, and the adversarially mismatching
combination `0x81`/Out is flagged (the check returns `false`) rather than
silently accepted. -/
theorem endpoint_direction_agrees_with_address_bit7 :
    (∀ e : LibusbJsEndpointDescriptor,
      endpointDirectionValid e = true ↔
        e.direction =
          (if Nat.testBit e.endpoint_address.val 7 then LibusbJsDirection.kIn
           else LibusbJsDirection.kOut)) ∧
    endpointDirectionValid endpointIn81 = true ∧
    endpointIn81.direction = LibusbJsDirection.kIn ∧
    endpointDirectionValid endpointOut02 = true ∧
    endpointOut02.direction = LibusbJsDirection.kOut ∧
    endpointDirectionValid endpointMismatch81Out = false := by
  refine ⟨?_, by decide, by decide, by decide, by decide, by decide⟩
  intro e
  by_cases hb : Nat.testBit e.endpoint_address.val 7 <;>
    simp [endpointDirectionValid, hb]

/-- Modelled from the spec: `TypedValue`, the closed sum type over
{Null, Bool, Int64, Float64, String, Bytes, List, Mapping} that is the sole
serialization currency of the bridge (spec section 3).  The `Value` class
itself is declared in a common library header that is not among the sources
at hand. -/
inductive Value where
  | null
  | boolean (b : Bool)
  | integer (i : Int)
  | float (f : Float)
  | string (s : String)
  | binary (bytes : List UInt8Val)
  | list (items : List Value)
  | dictionary (entries : List (String × Value))

/-- First value bound to a given key in a dictionary's entry list. -/
def getField (entries : List (String × Value)) (key : String) : Option Value :=
  match entries with
  | [] => none
  | (k, v) :: rest => if k = key then some v else getField rest key

/-- Encoding of one optional dictionary entry: an absent optional field
contributes no entry at all (explicit absence, never a default value). -/
def optEntry (key : String) : Option Value → List (String × Value)
  | none => []
  | some v => [(key, v)]

/-- Modelled from the spec: encoding of a `LibusbJsDevice` into a
`TypedValue` mapping (spec sections 4.6 and 8).  The converter definition is
not among the sources at hand; per the spec, absent optional fields are
serialized as explicitly absent. -/
def encodeDevice (d : LibusbJsDevice) : Value :=
  Value.dictionary
    ([("deviceId", Value.integer d.device_id.val),
      ("vendorId", Value.integer (d.vendor_id.val : Int)),
      ("productId", Value.integer (d.product_id.val : Int))] ++
      optEntry "version" (d.version.map fun v => Value.integer v.val) ++
      optEntry "productName" (d.product_name.map Value.string) ++
      optEntry "manufacturerName" (d.manufacturer_name.map Value.string) ++
      optEntry "serialNumber" (d.serial_number.map Value.string))

/-- Extraction of an `int64_t` from a `TypedValue`, with a type and range
check. -/
def asInt64 : Value → Option Int64Val
  | Value.integer i =>
      if h : -9223372036854775808 ≤ i ∧ i < 9223372036854775808 then some ⟨i, h⟩
      else none
  | _ => none

/-- Extraction of a `uint32_t` from a `TypedValue`, with a type and range
check. -/
def asUInt32 : Value → Option UInt32Val
  | Value.integer i =>
      if 0 ≤ i then
        if h : i.toNat < 4294967296 then some ⟨i.toNat, h⟩ else none
      else none
  | _ => none

/-- Extraction of a string from a `TypedValue`, with a type check. -/
def asString : Value → Option String
  | Value.string s => some s
  | _ => none

/-- Decoding of one optional field: a missing key decodes to `none`; a
present key must extract successfully. -/
def decodeOptField {α : Type} (entries : List (String × Value)) (key : String)
    (extract : Value → Option α) : Option (Option α) :=
  match getField entries key with
  | none => some none
  | some v => (extract v).map some

/-- Modelled from the spec: decoding of a `LibusbJsDevice` from a
`TypedValue` mapping (spec sections 4.6 and 8), inverse to
`encodeDevice`. -/
def decodeDevice : Value → Option LibusbJsDevice
  | Value.dictionary entries => do
      let deviceId ← (getField entries "deviceId").bind asInt64
      let vendorId ← (getField entries "vendorId").bind asUInt32
      let productId ← (getField entries "productId").bind asUInt32
      let version ← decodeOptField entries "version" asInt64
      let productName ← decodeOptField entries "productName" asString
      let manufacturerName ← decodeOptField entries "manufacturerName" asString
      let serialNumber ← decodeOptField entries "serialNumber" asString
      pure
        { device_id := deviceId
          vendor_id := vendorId
          product_id := productId
          version := version
          product_name := productName
          manufacturer_name := manufacturerName
          serial_number := serialNumber }
  | _ => none

theorem asInt64_roundtrip (x : Int64Val) :
    asInt64 (Value.integer x.val) = some x := by
  obtain ⟨i, h⟩ := x
  rw [asInt64, dif_pos h]

theorem asUInt32_roundtrip (x : UInt32Val) :
    asUInt32 (Value.integer (x.val : Int)) = some x := by
  obtain ⟨n, h⟩ := x
  have h0 : (0 : Int) ≤ (n : Int) := Int.natCast_nonneg n
  have h1 : ((n : Int)).toNat < 4294967296 := by simpa using h
  rw [asUInt32, if_pos h0, dif_pos h1]
  rfl

/-- The concrete device of the spec's round-trip scenario: `device_id = 7`,
`vendor_id = 0x046D`, `product_id = 0xC52B`, `version` absent,
`product_name = "Test Device"`, `manufacturer_name` and `serial_number`
absent. -/
def testDevice : LibusbJsDevice :=
  { device_id := ⟨7, by decide⟩
    vendor_id := ⟨0x046D, by decide⟩
    product_id := ⟨0xC52B, by decide⟩
    version := none
    product_name := some "Test Device"
    manufacturer_name := none
    serial_number := none }

/-- Top-level dictionary field lookup on an encoded value. -/
def getTopField (v : Value) (key : String) : Option Value :=
  match v with
  | Value.dictionary entries => getField entries key
  | _ => none

/-- Claim C4: decoding the `TypedValue` produced by encoding any
`LibusbJsDevice` yields the identical device, with identical absence of
every absent optional field; in the spec's concrete scenario (device 7,
vendor `0x046D`, product `0xC52B`, only `product_name` present) the encoded
mapping carries no entry at all for the absent `version`,
`manufacturer_name` and `serial_number` fields, and the round trip restores
the device exactly. -/
theorem device_encode_decode_roundtrip :
    (∀ d : LibusbJsDevice, decodeDevice (encodeDevice d) = some d) ∧
    decodeDevice (encodeDevice testDevice) = some testDevice ∧
    getTopField (encodeDevice testDevice) "version" = none ∧
    getTopField (encodeDevice testDevice) "manufacturerName" = none ∧
    getTopField (encodeDevice testDevice) "serialNumber" = none ∧
    getTopField (encodeDevice testDevice) "productName" =
      some (Value.string "Test Device") := by
  have main : ∀ d : LibusbJsDevice, decodeDevice (encodeDevice d) = some d := by
    intro d
    obtain ⟨did, vid, pid, ver, pn, mn, sn⟩ := d
    rcases ver with _ | v <;> rcases pn with _ | p <;> rcases mn with _ | m <;>
      rcases sn with _ | s <;>
      simp [encodeDevice, decodeDevice, optEntry, getField, decodeOptField,
        asString, asInt64_roundtrip, asUInt32_roundtrip]
  refine ⟨main, main testDevice, rfl, rfl, rfl, rfl⟩

/-- The field tuple the spec's data-model section lists for
`LibusbJsDevice`: 64-bit signed `device_id`, 32-bit `vendor_id` and
`product_id`, optional 64-bit `version`, and three optional strings. -/
def DeviceFields : Type :=
  Int64Val × UInt32Val × UInt32Val × Option Int64Val × Option String ×
    Option String × Option String

/-- Projection of a `LibusbJsDevice` onto the spec's field tuple. -/
def deviceToFields (d : LibusbJsDevice) : DeviceFields :=
  (d.device_id, d.vendor_id, d.product_id, d.version, d.product_name,
    d.manufacturer_name, d.serial_number)

/-- Reassembly of a `LibusbJsDevice` from the spec's field tuple. -/
def deviceOfFields : DeviceFields → LibusbJsDevice :=
  fun (did, vid, pid, ver, pn, mn, sn) =>
    { device_id := did
      vendor_id := vid
      product_id := pid
      version := ver
      product_name := pn
      manufacturer_name := mn
      serial_number := sn }

/-- Claim C5: the `LibusbJsDevice` record consists of exactly the fields the
spec lists — the projection onto the spec's field tuple and its reassembly
are mutually inverse — and the `version` field and the three name fields are
genuinely optional: a device with all four absent is representable, as is
one with all four present. -/
theorem device_fields_match_spec :
    (∀ d : LibusbJsDevice, deviceOfFields (deviceToFields d) = d) ∧
    (∀ t : DeviceFields, deviceToFields (deviceOfFields t) = t) ∧
    (∃ d : LibusbJsDevice,
      d.version = none ∧ d.product_name = none ∧
      d.manufacturer_name = none ∧ d.serial_number = none) ∧
    (∃ d : LibusbJsDevice,
      d.version ≠ none ∧ d.product_name ≠ none ∧
      d.manufacturer_name ≠ none ∧ d.serial_number ≠ none) := by
  refine ⟨fun d => rfl, fun t => rfl, ?_, ?_⟩
  · exact ⟨{ device_id := ⟨0, by decide⟩
             vendor_id := ⟨0, by decide⟩
             product_id := ⟨0, by decide⟩
             version := none
             product_name := none
             manufacturer_name := none
             serial_number := none }, rfl, rfl, rfl, rfl⟩
  · exact ⟨{ device_id := ⟨0, by decide⟩
             vendor_id := ⟨0, by decide⟩
             product_id := ⟨0, by decide⟩
             version := some ⟨1, by decide⟩
             product_name := some "p"
             manufacturer_name := some "m"
             serial_number := some "s" }, by decide, by simp, by simp, by simp⟩

/-- The field tuple the spec lists for `EndpointDescriptor`: 8-bit
`endpoint_address`, a direction, an endpoint type, an optional byte
sequence, and a 16-bit `max_packet_size`. -/
def EndpointFields : Type :=
  UInt8Val × LibusbJsDirection × LibusbJsEndpointType ×
    Option (List UInt8Val) × UInt16Val

/-- Projection of a `LibusbJsEndpointDescriptor` onto the spec's field
tuple. -/
def endpointToFields (e : LibusbJsEndpointDescriptor) : EndpointFields :=
  (e.endpoint_address, e.direction, e.type, e.extra_data, e.max_packet_size)

/-- Reassembly of a `LibusbJsEndpointDescriptor` from the spec's field
tuple. -/
def endpointOfFields : EndpointFields → LibusbJsEndpointDescriptor :=
  fun (addr, dir, ty, extra, mps) =>
    { endpoint_address := addr
      direction := dir
      type := ty
      extra_data := extra
      max_packet_size := mps }

/-- The field tuple the spec lists for `InterfaceDescriptor`: four 8-bit
fields, an optional byte sequence, and an ordered list of endpoints. -/
def InterfaceFields : Type :=
  UInt8Val × UInt8Val × UInt8Val × UInt8Val × Option (List UInt8Val) ×
    List LibusbJsEndpointDescriptor

/-- Projection of a `LibusbJsInterfaceDescriptor` onto the spec's field
tuple. -/
def interfaceToFields (i : LibusbJsInterfaceDescriptor) : InterfaceFields :=
  (i.interface_number, i.interface_class, i.interface_subclass,
    i.interface_protocol, i.extra_data, i.endpoints)

/-- Reassembly of a `LibusbJsInterfaceDescriptor` from the spec's field
tuple. -/
def interfaceOfFields : InterfaceFields → LibusbJsInterfaceDescriptor :=
  fun (num, cls, subcls, proto, extra, eps) =>
    { interface_number := num
      interface_class := cls
      interface_subclass := subcls
      interface_protocol := proto
      extra_data := extra
      endpoints := eps }

/-- The field tuple the spec lists for `ConfigurationDescriptor`: an active
flag, an 8-bit `configuration_value`, an optional byte sequence, and an
ordered list of interfaces. -/
def ConfigurationFields : Type :=
  Bool × UInt8Val × Option (List UInt8Val) × List LibusbJsInterfaceDescriptor

/-- Projection of a `LibusbJsConfigurationDescriptor` onto the spec's field
tuple. -/
def configurationToFields (c : LibusbJsConfigurationDescriptor) :
    ConfigurationFields :=
  (c.active, c.configuration_value, c.extra_data, c.interfaces)

/-- Reassembly of a `LibusbJsConfigurationDescriptor` from the spec's field
tuple. -/
def configurationOfFields :
    ConfigurationFields → LibusbJsConfigurationDescriptor :=
  fun (act, cv, extra, ifaces) =>
    { active := act
      configuration_value := cv
      extra_data := extra
      interfaces := ifaces }

/-- Claim C8: the descriptor wire schema matches the spec exactly — the
direction enumeration has exactly the two distinct values In and Out, the
endpoint type enumeration has exactly the four pairwise distinct values
Bulk, Control, Interrupt, Isochronous, an endpoint descriptor consists of
exactly the spec's five fields (the projection onto the field tuple and its
reassembly are mutually inverse), and configurations hold an ordered list of
interface descriptors which hold an ordered list of endpoint descriptors
(witnessed by the corresponding inverse field-tuple projections, whose list
components preserve the stored lists exactly). -/
theorem descriptor_schema_matches_spec :
    (∀ d : LibusbJsDirection,
      d = LibusbJsDirection.kIn ∨ d = LibusbJsDirection.kOut) ∧
    LibusbJsDirection.kIn ≠ LibusbJsDirection.kOut ∧
    (∀ t : LibusbJsEndpointType,
      t = LibusbJsEndpointType.kBulk ∨ t = LibusbJsEndpointType.kControl ∨
      t = LibusbJsEndpointType.kInterrupt ∨
      t = LibusbJsEndpointType.kIsochronous) ∧
    ([LibusbJsEndpointType.kBulk, LibusbJsEndpointType.kControl,
      LibusbJsEndpointType.kInterrupt,
      LibusbJsEndpointType.kIsochronous] : List LibusbJsEndpointType).Nodup ∧
    (∀ e : LibusbJsEndpointDescriptor,
      endpointOfFields (endpointToFields e) = e) ∧
    (∀ t : EndpointFields, endpointToFields (endpointOfFields t) = t) ∧
    (∀ i : LibusbJsInterfaceDescriptor,
      interfaceOfFields (interfaceToFields i) = i) ∧
    (∀ t : InterfaceFields, interfaceToFields (interfaceOfFields t) = t) ∧
    (∀ i : LibusbJsInterfaceDescriptor,
      (interfaceToFields i).2.2.2.2.2 = i.endpoints) ∧
    (∀ c : LibusbJsConfigurationDescriptor,
      configurationOfFields (configurationToFields c) = c) ∧
    (∀ t : ConfigurationFields,
      configurationToFields (configurationOfFields t) = t) ∧
    (∀ c : LibusbJsConfigurationDescriptor,
      (configurationToFields c).2.2.2 = c.interfaces) := by
  refine ⟨?_, by decide, ?_, by decide, fun e => rfl, fun t => rfl,
    fun i => rfl, fun t => rfl, fun i => rfl, fun c => rfl, fun t => rfl,
    fun c => rfl⟩
  · intro d
    cases d
    · exact Or.inl rfl
    · exact Or.inr rfl
  · intro t
    cases t
    · exact Or.inl rfl
    · exact Or.inr (Or.inl rfl)
    · exact Or.inr (Or.inr (Or.inl rfl))
    · exact Or.inr (Or.inr (Or.inr rfl))

/-- Model of the `Application` object owned by the test helper through a
`unique_ptr`.  `id` distinguishes distinct constructions; `ready` models
whether the background initialization (observable via `ReadinessTracker`,
per the comment in `SetUp`) has completed — construction starts with
`ready = false` because `SetUp` does not wait for it. -/
structure Application where
  id : Nat
  ready : Bool
deriving DecidableEq

/-- The helper's state: the `application_` member (a possibly-null
`unique_ptr<Application>`) plus a supply counter for fresh construction
identifiers. -/
structure HelperState where
  application : Option Application
  nextId : Nat
deriving DecidableEq

/-- Outcome carried by a `RequestReceiver::ResultCallback`: either a
successful payload or an error message (`GenericRequestResult`). -/
inductive RequestResult where
  | ok (payload : Value)
  | error (message : String)

/-- Observable events of the helper model, in program order. -/
inductive Event where
  | constructApplication (id : Nat)
  | destroyApplication (id : Nat)
  | shutDownAndWait (id : Nat)
  | resultCallback (result : RequestResult)
  | completionCallback

/-- Whether an event is an invocation of the `ResultCallback`. -/
def Event.isResultCallback : Event → Bool
  | Event.resultCallback _ => true
  | _ => false

/-- Whether an event is an invocation of the `TearDown` completion
callback. -/
def Event.isCompletionCallback : Event → Bool
  | Event.completionCallback => true
  | _ => false

/-- Whether an event is a call to `Application::ShutDownAndWait`. -/
def Event.isShutDownAndWait : Event → Bool
  | Event.shutDownAndWait _ => true
  | _ => false

/-- Whether an event is the destruction of an `Application`. -/
def Event.isDestroyApplication : Event → Bool
  | Event.destroyApplication _ => true
  | _ => false

/-- A fault of the C++ program: calling a member function through a null
`unique_ptr`. -/
inductive Fault where
  | nullApplication
deriving DecidableEq

/-- Embedding of `SmartCardConnectorApplicationTestHelper::SetUp`
(`application_integration_test_helper.cc`, lines 62-72).  The `data`
payload is ignored by the code.  `application_ = MakeUnique<Application>(...)`
constructs a fresh `Application` (not yet initialized: initialization runs
on background threads and is not waited for) and destroys any previously
owned one; then the result callback is invoked with
`GenericRequestResult::CreateSuccessful(Value())`. -/
def setUp (_data : Value) (s : HelperState) : HelperState × List Event :=
  let newApp : Application := { id := s.nextId, ready := false }
  let destruction : List Event :=
    match s.application with
    | none => []
    | some old => [Event.destroyApplication old.id]
  ({ application := some newApp, nextId := s.nextId + 1 },
    Event.constructApplication newApp.id ::
      (destruction ++ [Event.resultCallback (RequestResult.ok Value.null)]))

/-- Embedding of `SmartCardConnectorApplicationTestHelper::OnMessageFromJs`
(`application_integration_test_helper.cc`, lines 86-88): the body is empty —
both the message payload and the result callback are ignored. -/
def onMessageFromJs (_data : Value) (s : HelperState) :
    HelperState × List Event :=
  (s, [])

/-- Embedding of the background-thread lambda of
`SmartCardConnectorApplicationTestHelper::TearDown`
(`application_integration_test_helper.cc`, lines 79-83), as the sequence of
events it performs, each paired with the helper state right after it:
`application_->ShutDownAndWait(); application_.reset();
completion_callback();`.  When `application_` is null (no prior `SetUp`),
the very first statement dereferences a null pointer: the model reports a
fault and no event happens. -/
def tearDownBackgroundSteps (s : HelperState) :
    Except Fault (List (Event × HelperState)) :=
  match s.application with
  | none => Except.error Fault.nullApplication
  | some app =>
      let cleared : HelperState := { s with application := none }
      Except.ok
        [(Event.shutDownAndWait app.id, s),
         (Event.destroyApplication app.id, cleared),
         (Event.completionCallback, cleared)]

/-- Embedding of `SmartCardConnectorApplicationTestHelper::TearDown`
(`application_integration_test_helper.cc`, lines 74-84): the caller's thread
only spawns and detaches the background thread (no events of its own, no
blocking), and the detached thread runs `tearDownBackgroundSteps`. -/
def tearDown (s : HelperState) :
    List Event × Except Fault (List (Event × HelperState)) :=
  ([], tearDownBackgroundSteps s)

/-- The events a background-thread outcome performs (none when it
faults before doing anything observable). -/
def backgroundEvents (r : Except Fault (List (Event × HelperState))) :
    List Event :=
  match r with
  | Except.error _ => []
  | Except.ok steps => steps.map Prod.fst

/-- How many times a background-thread outcome invokes the `TearDown`
completion callback. -/
def completionCount (r : Except Fault (List (Event × HelperState))) : Nat :=
  ((backgroundEvents r).filter Event.isCompletionCallback).length

/-- Claim C2: the claim (and the spec's helper contract) requires `TearDown`
to be safe even when `SetUp` was never invoked, but the code unconditionally
runs `application_->ShutDownAndWait()` on the background thread: with no
previously constructed `Application` (`application_ == nullptr`) this
dereferences a null pointer, the model faults, and the completion callback
is never invoked. -/
theorem tearDown_without_setup_dereferences_null :
    tearDownBackgroundSteps { application := none, nextId := 0 } =
      Except.error Fault.nullApplication ∧
    completionCount (tearDown { application := none, nextId := 0 }).2 = 0 :=
  ⟨rfl, rfl⟩

/-- Claim C3 (counterexample): delivering a message to an active helper
(one that owns an Application) resolves the supplied result callback zero
times, not exactly once as claimed — `OnMessageFromJs` has an empty body. -/
theorem onMessage_callback_count_ne_one :
    ((onMessageFromJs (Value.integer 1)
          { application := some { id := 0, ready := true }, nextId := 1 }).2.filter
        Event.isResultCallback).length ≠ 1 := by
  decide

/-- Claim C3 (amended): for every message delivered to the helper,
`OnMessageFromJs` ignores the payload and the result callback entirely — it
leaves the state unchanged, performs no events, and resolves the supplied
result callback zero times, never once. -/
theorem onMessage_never_resolves_callback :
    ∀ (data : Value) (s : HelperState),
      (onMessageFromJs data s).1 = s ∧
      ((onMessageFromJs data s).2.filter Event.isResultCallback).length = 0 ∧
      (onMessageFromJs data s).2 = [] :=
  fun _ _ => ⟨rfl, rfl, rfl⟩

/-- Claim C6 (counterexample): invoking `TearDown` on a helper that owns no
`Application` (no prior `SetUp`) does not invoke the completion callback
exactly once — the background thread faults on a null dereference before
any callback, refuting the claim's unconditional "for every invocation". -/
theorem tearDown_no_callback_without_application :
    completionCount (tearDown { application := none, nextId := 5 }).2 ≠ 1 := by
  decide

/-- Claim C6 (amended): for every invocation of `TearDown` on a helper that
owns an `Application`, the caller's thread performs no events at all (the
blocking work is spawned onto a detached background thread), the completion
callback is invoked exactly once, and it is invoked strictly after
`ShutDownAndWait` has returned (the shutdown event precedes the callback
event in the background trace). -/
theorem tearDown_callback_once_after_shutdown (s : HelperState)
    (app : Application) (h : s.application = some app) :
    (tearDown s).1 = [] ∧
    completionCount (tearDown s).2 = 1 ∧
    ∃ i j : Nat, i < j ∧
      (backgroundEvents (tearDown s).2).get? i =
        some (Event.shutDownAndWait app.id) ∧
      (backgroundEvents (tearDown s).2).get? j =
        some Event.completionCallback := by
  obtain ⟨appOpt, n⟩ := s
  cases appOpt with
  | none => exact Option.noConfusion h
  | some a =>
      obtain rfl : a = app := by injection h
      exact ⟨rfl, rfl, 0, 2, by decide, rfl, rfl⟩

/-- Witness for C6 at a concrete helper state owning application 3. -/
theorem tearDown_callback_once_after_shutdown_witness :
    (tearDown { application := some { id := 3, ready := true }, nextId := 4 }).1 =
      [] ∧
    completionCount
      (tearDown { application := some { id := 3, ready := true }, nextId := 4 }).2 =
      1 ∧
    ∃ i j : Nat, i < j ∧
      (backgroundEvents
          (tearDown
            { application := some { id := 3, ready := true }, nextId := 4 }).2).get?
        i = some (Event.shutDownAndWait 3) ∧
      (backgroundEvents
          (tearDown
            { application := some { id := 3, ready := true }, nextId := 4 }).2).get?
        j = some Event.completionCallback :=
  tearDown_callback_once_after_shutdown _ { id := 3, ready := true } rfl

/-- Claim C7: for every input payload and helper state, `SetUp` invokes the
supplied result callback exactly once with a successful result (carrying the
default `Value`), installs a freshly constructed `Application` whose
background initialization has not been waited for (`ready = false` at the
time `SetUp` completes — readiness is observable separately), and the
payload value does not affect the outcome at all. -/
theorem setUp_resolves_once_successfully :
    ∀ (data : Value) (s : HelperState),
      ((setUp data s).2.filter Event.isResultCallback) =
        [Event.resultCallback (RequestResult.ok Value.null)] ∧
      (setUp data s).1.application = some { id := s.nextId, ready := false } ∧
      (∀ data2 : Value, setUp data2 s = setUp data s) := by
  intro data s
  refine ⟨?_, rfl, fun data2 => rfl⟩
  obtain ⟨appOpt, n⟩ := s
  cases appOpt <;> rfl

/-- Claim C9: invoking `SetUp` while the helper already owns an
`Application` destroys that previous `Application` and replaces it with a
newly constructed one (fresh identifier, initialization not yet complete)
without `ShutDownAndWait` ever being called on anything, and the result
callback still reports success exactly once. -/
theorem setUp_replaces_previous_application (s : HelperState)
    (old : Application) (h : s.application = some old) (data : Value) :
    (setUp data s).1.application = some { id := s.nextId, ready := false } ∧
    ((setUp data s).2.filter Event.isShutDownAndWait) = [] ∧
    Event.destroyApplication old.id ∈ (setUp data s).2 ∧
    Event.constructApplication s.nextId ∈ (setUp data s).2 ∧
    ((setUp data s).2.filter Event.isResultCallback) =
      [Event.resultCallback (RequestResult.ok Value.null)] := by
  obtain ⟨appOpt, n⟩ := s
  cases appOpt with
  | none => exact Option.noConfusion h
  | some a =>
      obtain rfl : a = old := by injection h
      refine ⟨rfl, rfl, ?_, ?_, rfl⟩
      · exact List.mem_cons_of_mem _ (List.mem_cons_self _ _)
      · exact List.mem_cons_self _ _

/-- Witness for C9 at a concrete helper state owning application 9. -/
theorem setUp_replaces_previous_application_witness :
    (setUp (Value.boolean true)
        { application := some { id := 9, ready := true }, nextId := 10 }).1.application =
      some { id := 10, ready := false } ∧
    ((setUp (Value.boolean true)
          { application := some { id := 9, ready := true }, nextId := 10 }).2.filter
        Event.isShutDownAndWait) = [] ∧
    Event.destroyApplication 9 ∈
      (setUp (Value.boolean true)
          { application := some { id := 9, ready := true }, nextId := 10 }).2 ∧
    Event.constructApplication 10 ∈
      (setUp (Value.boolean true)
          { application := some { id := 9, ready := true }, nextId := 10 }).2 ∧
    ((setUp (Value.boolean true)
          { application := some { id := 9, ready := true }, nextId := 10 }).2.filter
        Event.isResultCallback) =
      [Event.resultCallback (RequestResult.ok Value.null)] :=
  setUp_replaces_previous_application _ { id := 9, ready := true } rfl
    (Value.boolean true)

/-- Claim C10: in `TearDown`'s background work the owned application pointer
is reset to null strictly after `ShutDownAndWait` returns and strictly
before the completion callback is invoked; every step whose event is the
completion callback already sees a state owning no `Application`; and a
subsequent `SetUp` from the final state constructs a fresh `Application`
with nothing left over to destroy. -/
theorem tearDown_resets_application_before_callback (s : HelperState)
    (app : Application) (h : s.application = some app) :
    ∃ steps, tearDownBackgroundSteps s = Except.ok steps ∧
      (∀ p ∈ steps,
        p.1 = Event.completionCallback → p.2.application = none) ∧
      (∃ i j k : Nat, i < j ∧ j < k ∧
        steps.get? i = some (Event.shutDownAndWait app.id, s) ∧
        (steps.get? j).map Prod.fst = some (Event.destroyApplication app.id) ∧
        ((steps.get? j).map fun p => p.2.application) = some none ∧
        (steps.get? k).map Prod.fst = some Event.completionCallback) ∧
      (∃ final : HelperState,
        steps.get? 2 = some (Event.completionCallback, final) ∧
        final.application = none ∧
        ∀ data : Value,
          (setUp data final).1.application =
            some { id := final.nextId, ready := false } ∧
          Event.constructApplication final.nextId ∈ (setUp data final).2 ∧
          ((setUp data final).2.filter Event.isDestroyApplication) = []) := by
  obtain ⟨appOpt, n⟩ := s
  cases appOpt with
  | none => exact Option.noConfusion h
  | some a =>
      obtain rfl : a = app := by injection h
      refine ⟨_, rfl, ?_, ⟨0, 1, 2, by decide, by decide, rfl, rfl, rfl, rfl⟩,
        ⟨{ application := none, nextId := n }, rfl, rfl,
          fun data => ⟨rfl, List.mem_cons_self _ _, rfl⟩⟩⟩
      intro p hp hc
      simp only [List.mem_cons, List.not_mem_nil, or_false] at hp
      rcases hp with rfl | rfl | rfl
      · exact Event.noConfusion hc
      · exact Event.noConfusion hc
      · rfl

/-- Witness for C10 at a concrete helper state owning application 1. -/
theorem tearDown_resets_application_before_callback_witness :
    ∃ steps,
      tearDownBackgroundSteps
          { application := some { id := 1, ready := true }, nextId := 2 } =
        Except.ok steps ∧
      (∀ p ∈ steps,
        p.1 = Event.completionCallback → p.2.application = none) ∧
      (∃ i j k : Nat, i < j ∧ j < k ∧
        steps.get? i =
          some (Event.shutDownAndWait 1,
            { application := some { id := 1, ready := true }, nextId := 2 }) ∧
        (steps.get? j).map Prod.fst = some (Event.destroyApplication 1) ∧
        ((steps.get? j).map fun p => p.2.application) = some none ∧
        (steps.get? k).map Prod.fst = some Event.completionCallback) ∧
      (∃ final : HelperState,
        steps.get? 2 = some (Event.completionCallback, final) ∧
        final.application = none ∧
        ∀ data : Value,
          (setUp data final).1.application =
            some { id := final.nextId, ready := false } ∧
          Event.constructApplication final.nextId ∈ (setUp data final).2 ∧
          ((setUp data final).2.filter Event.isDestroyApplication) = []) :=
  tearDown_resets_application_before_callback _ { id := 1, ready := true } rfl

end GoogleSmartCard
